import Mathlib

/-!
Verification of the cpq-service core against its specification.

The TypeScript source is shallowly embedded: JavaScript numbers (prices,
rates) are modelled as exact rationals `ℚ`; quantities as `ℕ`; functions
that `throw` are modelled in `Except String`; optional fields as `Option`.
JavaScript's stable `Array.prototype.sort` with comparator
`(a, b) => a.priority - b.priority` is modelled by the stable
`List.insertionSort` with the total preorder `a.priority ≤ b.priority`
(every stable sort under a consistent comparator produces the same list).
`String.prototype.startsWith` is modelled as a prefix test on the
character lists.  The quote's generated `id`, `createdAt` timestamp and
the `metadata` echo are environment-dependent output fields read by no
modelled computation and are omitted from the `Quote` structure.
-/

namespace CPQ

/-- From src/types/index.ts `ProductOption`.  The `description` and
`category` fields are never read by any modelled computation and are
omitted.  In the source `dependencies`/`conflicts` are optional arrays;
an absent array is only ever iterated or filtered, which coincides with
the empty list, so both are embedded as lists defaulting to `[]`. -/
structure ProductOption where
  id : String
  name : String
  price : ℚ
  isRequired : Bool
  dependencies : List String := []
  conflicts : List String := []
deriving DecidableEq

/-- From src/types/index.ts `Product` (the `description` and `metadata`
fields are never read by modelled code and are omitted). -/
structure Product where
  id : String
  name : String
  basePrice : ℚ
  category : String
  options : List ProductOption
deriving DecidableEq

/-- From src/types/index.ts `ConfigurationItem` (`customizations` is
never read by modelled code and is omitted). -/
structure ConfigurationItem where
  productId : String
  selectedOptions : List String
  quantity : ℕ
deriving DecidableEq

/-- One `{field, message}` entry of a `ValidationResult`. -/
structure VError where
  field : String
  message : String
deriving DecidableEq

/-- From src/types/index.ts `ValidationResult`; `warnings` is an optional
field, omitted (`none`) when no warnings apply. -/
structure ValidationResult where
  isValid : Bool
  errors : List VError
  warnings : Option (List VError) := none
deriving DecidableEq

/-- The catalog entry `cloud-server-basic`, from src/config/products.ts. -/
def cloudServerBasic : Product :=
  { id := "cloud-server-basic"
    , name := "Cloud Server - Basic"
    , basePrice := 50
    , category := "compute"
    , options :=
      [ { id := "ram-8gb", name := "8GB RAM Upgrade", price := 20, isRequired := false }
      , { id := "ram-16gb", name := "16GB RAM Upgrade", price := 50, isRequired := false
        , conflicts := ["ram-8gb"] }
      , { id := "storage-ssd-100gb", name := "100GB SSD Storage", price := 15
        , isRequired := false }
      , { id := "storage-ssd-500gb", name := "500GB SSD Storage", price := 60
        , isRequired := false, conflicts := ["storage-ssd-100gb"] }
      , { id := "backup-daily", name := "Daily Backups", price := 25, isRequired := false }
      , { id := "monitoring-basic", name := "Basic Monitoring", price := 10
        , isRequired := false } ] }

/-- The catalog entry `cloud-server-pro`, from src/config/products.ts. -/
def cloudServerPro : Product :=
  { id := "cloud-server-pro"
    , name := "Cloud Server - Professional"
    , basePrice := 150
    , category := "compute"
    , options :=
      [ { id := "ram-32gb", name := "32GB RAM Upgrade", price := 80, isRequired := false }
      , { id := "ram-64gb", name := "64GB RAM Upgrade", price := 180, isRequired := false
        , conflicts := ["ram-32gb"] }
      , { id := "storage-nvme-1tb", name := "1TB NVMe Storage", price := 120
        , isRequired := false }
      , { id := "load-balancer", name := "Load Balancer", price := 50, isRequired := false }
      , { id := "cdn", name := "Global CDN", price := 75, isRequired := false }
      , { id := "support-premium", name := "Premium Support", price := 200
        , isRequired := false } ] }

/-- The catalog entry `database-managed-mysql`, from src/config/products.ts. -/
def databaseManagedMysql : Product :=
  { id := "database-managed-mysql"
    , name := "Managed MySQL Database"
    , basePrice := 80
    , category := "database"
    , options :=
      [ { id := "db-storage-50gb", name := "50GB Database Storage", price := 20
        , isRequired := false }
      , { id := "db-storage-200gb", name := "200GB Database Storage", price := 70
        , isRequired := false, conflicts := ["db-storage-50gb"] }
      , { id := "read-replicas-2", name := "2 Read Replicas", price := 100
        , isRequired := false }
      , { id := "point-in-time-recovery", name := "Point-in-Time Recovery", price := 40
        , isRequired := false } ] }

/-- The catalog entry `professional-services`, from src/config/products.ts. -/
def professionalServices : Product :=
  { id := "professional-services"
    , name := "Professional Services Package"
    , basePrice := 5000
    , category := "services"
    , options :=
      [ { id := "architecture-review", name := "Architecture Review", price := 2000
        , isRequired := false }
      , { id := "migration-support", name := "Migration Support", price := 3000
        , isRequired := false }
      , { id := "training-basic", name := "Basic Training (8 hours)", price := 1500
        , isRequired := false }
      , { id := "training-advanced", name := "Advanced Training (16 hours)", price := 3500
        , isRequired := false, dependencies := ["training-basic"] } ] }

/-- The product catalog, from src/config/products.ts, in declaration
order. -/
def products : List Product :=
  [cloudServerBasic, cloudServerPro, databaseManagedMysql, professionalServices]

/-- From src/config/products.ts: `products.find((p) => p.id === productId)`. -/
def getProductById (productId : String) : Option Product :=
  products.find? (fun p => p.id == productId)

/-- JavaScript `str.startsWith(pre)`, as a prefix test on character lists. -/
def strStartsWith (s pre : String) : Bool :=
  pre.data.isPrefixOf s.data

/-- The errors pushed by the required-options loop of
`validateConfiguration` (src/config/configuration-rules.ts): one error
per required option of the product whose id is not selected, in the
product's option order. -/
def requiredOptionErrors (product : Product) (selectedOptions : List String) : List VError :=
  ((product.options.filter (fun opt => opt.isRequired)).filter
      (fun ro => !(selectedOptions.contains ro.id))).map
    (fun ro =>
      { field := "selectedOptions"
      , message := "Required option \x27" ++ ro.name ++ "\x27 is not selected" })

/-- The errors pushed by the invalid-option-ids loop of
`validateConfiguration`: one error per selected id absent from the
product's option-id set, in selection order. -/
def invalidOptionErrors (product : Product) (selectedOptions : List String) : List VError :=
  (selectedOptions.filter
      (fun s => !((product.options.map (fun opt => opt.id)).contains s))).map
    (fun s =>
      { field := "selectedOptions"
      , message := "Invalid option \x27" ++ s ++ "\x27 for product \x27"
          ++ product.name ++ "\x27" })

/-- The source renders `conflictOption?.name` inside a template literal,
which prints the string "undefined" when the lookup misses. -/
def renderOptName : Option ProductOption → String
  | some o => o.name
  | none => "undefined"

/-- The (selected id, conflicting id) pairs contributed by one selected
id `s` in the conflicting-options loop of `validateConfiguration`: each
conflicting id declared by `s`'s option that is also selected. -/
def conflictPairsFor (product : Product) (selectedOptions : List String)
    (s : String) : List (String × String) :=
  match product.options.find? (fun opt => opt.id == s) with
  | none => []
  | some option =>
    (option.conflicts.filter (fun c => selectedOptions.contains c)).map
      (fun c => (s, c))

/-- The (selected id, conflicting id) pairs enumerated by the
conflicting-options loop of `validateConfiguration`, in loop order. -/
def conflictPairs (product : Product) (selectedOptions : List String) :
    List (String × String) :=
  selectedOptions.flatMap (conflictPairsFor product selectedOptions)

/-- The error the conflicting-options loop pushes for one conflict pair. -/
def conflictErrorOf (product : Product) (s c : String) : VError :=
  { field := "selectedOptions"
  , message := "Options \x27"
      ++ renderOptName (product.options.find? (fun opt => opt.id == s))
      ++ "\x27 and \x27"
      ++ renderOptName (product.options.find? (fun opt => opt.id == c))
      ++ "\x27 cannot be selected together" }

/-- The errors pushed by the conflicting-options loop of
`validateConfiguration`, in loop order. -/
def conflictErrors (product : Product) (selectedOptions : List String) : List VError :=
  (conflictPairs product selectedOptions).map
    (fun p => conflictErrorOf product p.1 p.2)

/-- The errors pushed by the missing-dependencies loop of
`validateConfiguration`: for each selected id whose option declares
dependencies, one error per declared dependency id absent from the
selection. -/
def dependencyErrors (product : Product) (selectedOptions : List String) : List VError :=
  selectedOptions.flatMap (fun s =>
    match product.options.find? (fun opt => opt.id == s) with
    | none => []
    | some option =>
      (option.dependencies.filter (fun d => !(selectedOptions.contains d))).map
        (fun d =>
          { field := "selectedOptions"
          , message := "Option \x27" ++ option.name ++ "\x27 requires \x27"
              ++ renderOptName (product.options.find? (fun opt => opt.id == d))
              ++ "\x27 to be selected" }))

/-- The advisory warnings of `validateConfiguration`: recommend daily
backups for cloud-server products when `backup-daily` is not selected. -/
def advisoryWarnings (product : Product) (selectedOptions : List String) : List VError :=
  if strStartsWith product.id ("cloud-server-")
      && !(selectedOptions.contains ("backup-daily")) then
    [ { field := "selectedOptions"
      , message := "Daily backups are recommended for production workloads" } ]
  else []

/-- From src/config/configuration-rules.ts `validateConfiguration`:
unknown product short-circuits with a single productId error; otherwise
the four checking loops push errors in sequence (required, invalid,
conflicts, dependencies), warnings are attached only when nonempty, and
`isValid` is `errors.length === 0`. -/
def validateConfiguration (productId : String) (selectedOptions : List String) :
    ValidationResult :=
  match getProductById productId with
  | none =>
    { isValid := false
    , errors :=
        [ { field := "productId"
          , message := "Product \x27" ++ productId ++ "\x27 not found" } ]
    , warnings := none }
  | some product =>
    let errors :=
      requiredOptionErrors product selectedOptions
        ++ invalidOptionErrors product selectedOptions
        ++ conflictErrors product selectedOptions
        ++ dependencyErrors product selectedOptions
    let warnings := advisoryWarnings product selectedOptions
    { isValid := errors.length == 0
    , errors := errors
    , warnings := if warnings.length > 0 then some warnings else none }

/-- A JSON-like value for the free-form `customFields` record; the rule
catalog only ever reads `customFields?.earlyBird === true`. -/
inductive CustomValue
  | bool (b : Bool)
  | str (s : String)
  | num (q : ℚ)
deriving DecidableEq

/-- From src/types/index.ts `PricingContext` (customFields as an
association list of JSON-like values). -/
structure PricingContext where
  product : Product
  configuration : ConfigurationItem
  allConfigurations : List ConfigurationItem
  customerTier : Option String := none
  region : Option String := none
  customFields : Option (List (String × CustomValue)) := none

/-- From src/types/index.ts `PricingRule` (the `description` and `type`
fields are never read by modelled code and are omitted). -/
structure PricingRule where
  id : String
  name : String
  priority : ℤ
  condition : PricingContext → Bool
  apply : ℚ → PricingContext → ℚ

/-- The `volume-discount-10-percent` rule, from
src/config/pricing-rules.ts. -/
def volumeDiscount10 : PricingRule :=
  { id := "volume-discount-10-percent"
    , name := "Volume Discount - 10%"
    , priority := 10
    , condition := fun context =>
        decide (5 ≤ context.configuration.quantity)
          && decide (context.configuration.quantity < 10)
    , apply := fun price _context => price * (9/10) }

/-- The `volume-discount-20-percent` rule, from
src/config/pricing-rules.ts. -/
def volumeDiscount20 : PricingRule :=
  { id := "volume-discount-20-percent"
    , name := "Volume Discount - 20%"
    , priority := 9
    , condition := fun context => decide (10 ≤ context.configuration.quantity)
    , apply := fun price _context => price * (8/10) }

/-- The `enterprise-tier-discount` rule, from
src/config/pricing-rules.ts. -/
def enterpriseTierDiscount : PricingRule :=
  { id := "enterprise-tier-discount"
    , name := "Enterprise Tier Discount"
    , priority := 5
    , condition := fun context => context.customerTier == some ("enterprise")
    , apply := fun price _context => price * (85/100) }

/-- The `startup-tier-discount` rule, from src/config/pricing-rules.ts. -/
def startupTierDiscount : PricingRule :=
  { id := "startup-tier-discount"
    , name := "Startup Tier Discount"
    , priority := 5
    , condition := fun context => context.customerTier == some ("startup")
    , apply := fun price _context => price * (75/100) }

/-- The `bundle-discount-compute-database` rule, from
src/config/pricing-rules.ts. -/
def bundleDiscountComputeDatabase : PricingRule :=
  { id := "bundle-discount-compute-database"
    , name := "Compute + Database Bundle Discount"
    , priority := 15
    , condition := fun context =>
        (context.allConfigurations.any (fun c => strStartsWith c.productId ("cloud-server-")))
          && (context.allConfigurations.any (fun c => strStartsWith c.productId ("database-")))
    , apply := fun price _context => price * (9/10) }

/-- The `premium-support-bundle` rule, from src/config/pricing-rules.ts. -/
def premiumSupportBundle : PricingRule :=
  { id := "premium-support-bundle"
    , name := "Premium Support Bundle"
    , priority := 8
    , condition := fun context =>
        (context.allConfigurations.any (fun c => c.productId == "cloud-server-pro"))
          && (context.configuration.selectedOptions.contains ("support-premium"))
          && decide (3 ≤ context.allConfigurations.length)
    , apply := fun price context =>
        match context.product.options.find? (fun opt => opt.id == "support-premium") with
        | some premiumSupportOption => price - premiumSupportOption.price
        | none => price }

/-- The `region-pricing-us-west` rule, from src/config/pricing-rules.ts. -/
def regionPricingUsWest : PricingRule :=
  { id := "region-pricing-us-west"
    , name := "US West Region Standard Pricing"
    , priority := 20
    , condition := fun context => context.region == some ("us-west")
    , apply := fun price _context => price }

/-- The `region-pricing-eu` rule, from src/config/pricing-rules.ts. -/
def regionPricingEu : PricingRule :=
  { id := "region-pricing-eu"
    , name := "EU Region Premium"
    , priority := 20
    , condition := fun context =>
        (context.region == some ("eu-central")) || (context.region == some ("eu-west"))
    , apply := fun price _context => price * (108/100) }

/-- The `region-pricing-apac` rule, from src/config/pricing-rules.ts. -/
def regionPricingApac : PricingRule :=
  { id := "region-pricing-apac"
    , name := "APAC Region Premium"
    , priority := 20
    , condition := fun context =>
        (context.region == some ("apac-east")) || (context.region == some ("apac-south"))
    , apply := fun price _context => price * (105/100) }

/-- The `professional-services-early-bird` rule, from
src/config/pricing-rules.ts. -/
def professionalServicesEarlyBird : PricingRule :=
  { id := "professional-services-early-bird"
    , name := "Professional Services Early Bird"
    , priority := 12
    , condition := fun context =>
        (context.product.id == "professional-services")
          && ((context.customFields.bind (fun cf => cf.lookup ("earlyBird")))
                == some (CustomValue.bool true))
    , apply := fun price _context => price - 1000 }

/-- The rule catalog, from src/config/pricing-rules.ts, in declaration
order. -/
def pricingRules : List PricingRule :=
  [ volumeDiscount10, volumeDiscount20, enterpriseTierDiscount
  , startupTierDiscount, bundleDiscountComputeDatabase, premiumSupportBundle
  , regionPricingUsWest, regionPricingEu, regionPricingApac
  , professionalServicesEarlyBird ]

/-- The comparator passed to the sort in `getApplicableRules`:
`(a, b) => a.priority - b.priority` keeps `a` no later than `b`
exactly when `a.priority ≤ b.priority`. -/
def priorityLE (a b : PricingRule) : Prop :=
  a.priority ≤ b.priority

instance : DecidableRel priorityLE :=
  fun a b => inferInstanceAs (Decidable (a.priority ≤ b.priority))

instance : IsTotal PricingRule priorityLE :=
  ⟨fun a b => Int.le_total a.priority b.priority⟩

instance : IsTrans PricingRule priorityLE :=
  ⟨fun _ _ _ hab hbc => le_trans hab hbc⟩

/-- From src/config/pricing-rules.ts `getApplicableRules`: filter the
catalog by each rule's condition, then stable-sort ascending by
priority. -/
def getApplicableRules (context : PricingContext) : List PricingRule :=
  List.insertionSort priorityLE (pricingRules.filter (fun rule => rule.condition context))

/-- One `{ruleId, ruleName, discountAmount}` record of `appliedRules`. -/
structure AppliedRule where
  ruleId : String
  ruleName : String
  discountAmount : ℚ
deriving DecidableEq

/-- The rule-application loop of `applyPricingRules`: thread the current
price through each rule in order, recording an entry exactly when
`previousPrice - currentPrice` is nonzero. -/
def applyRulesGo (context : PricingContext) :
    List PricingRule → ℚ → ℚ × List AppliedRule
  | [], currentPrice => (currentPrice, [])
  | rule :: rest, currentPrice =>
    let newPrice := rule.apply currentPrice context
    let discountAmount := currentPrice - newPrice
    let tail := applyRulesGo context rest newPrice
    (tail.1,
      if discountAmount ≠ 0 then
        { ruleId := rule.id, ruleName := rule.name
        , discountAmount := discountAmount } :: tail.2
      else tail.2)

/-- The `{finalPrice, appliedRules}` result of `applyPricingRules`. -/
structure ApplyResult where
  finalPrice : ℚ
  appliedRules : List AppliedRule
deriving DecidableEq

/-- From src/config/pricing-rules.ts `applyPricingRules`: run the loop
over the applicable rules and clamp the final price at zero. -/
def applyPricingRules (basePrice : ℚ) (context : PricingContext) : ApplyResult :=
  let run := applyRulesGo context (getApplicableRules context) basePrice
  { finalPrice := max 0 run.1, appliedRules := run.2 }

/-- Sequential `Array.prototype.map` whose body may `throw`: the first
thrown error aborts the whole traversal. -/
def mapE {α β : Type} (f : α → Except String β) : List α → Except String (List β)
  | [] => Except.ok []
  | x :: xs =>
    match f x with
    | Except.error e => Except.error e
    | Except.ok y =>
      match mapE f xs with
      | Except.error e => Except.error e
      | Except.ok ys => Except.ok (y :: ys)

/-- The option-price accumulation loop of
`ConfiguratorService.calculateBasePrice` (src/services/configurator.ts):
starting from `total`, add the price of each selected option id that is
found on the product; ids that are not found are skipped. -/
def optionsPriceSum (product : Product) (selectedOptions : List String) (total : ℚ) : ℚ :=
  selectedOptions.foldl
    (fun t optionId =>
      match product.options.find? (fun opt => opt.id == optionId) with
      | some option => t + option.price
      | none => t)
    total

/-- From src/services/configurator.ts `ConfiguratorService.calculateBasePrice`:
throws when the product is unknown, otherwise
`(basePrice + Σ found option prices) * quantity`. -/
def calculateBasePrice (configuration : ConfigurationItem) : Except String ℚ :=
  match getProductById configuration.productId with
  | none =>
    Except.error ("Product \x27" ++ configuration.productId ++ "\x27 not found")
  | some product =>
    Except.ok (optionsPriceSum product configuration.selectedOptions product.basePrice
        * (configuration.quantity : ℚ))

/-- One entry of `ConfiguratorService.validateConfigurations`' results. -/
structure PerItemValidation where
  productId : String
  validation : ValidationResult
deriving DecidableEq

/-- The batch result of `ConfiguratorService.validateConfigurations`. -/
structure BatchValidation where
  isValid : Bool
  results : List PerItemValidation
deriving DecidableEq

/-- From src/services/configurator.ts
`ConfiguratorService.validateConfigurations`: validate every item and be
valid overall exactly when every per-item validation is valid. -/
def validateConfigurations (configurations : List ConfigurationItem) : BatchValidation :=
  let results := configurations.map (fun config =>
    { productId := config.productId
    , validation := validateConfiguration config.productId config.selectedOptions })
  { isValid := results.all (fun result => result.validation.isValid)
  , results := results }

/-- One item of `PricerService.calculateTotalPrice`'s `items`. -/
structure ItemPricing where
  productId : String
  basePrice : ℚ
  finalPrice : ℚ
  appliedRules : List AppliedRule
deriving DecidableEq

/-- From src/services/pricer.ts `PricerService.calculatePrice`: look up
the product (throwing when unknown), compute the base price, build the
pricing context and run the rule engine. -/
def calculatePrice (configuration : ConfigurationItem)
    (allConfigurations : List ConfigurationItem)
    (customerTier region : Option String)
    (customFields : Option (List (String × CustomValue))) :
    Except String ItemPricing :=
  match getProductById configuration.productId with
  | none =>
    Except.error ("Product \x27" ++ configuration.productId ++ "\x27 not found")
  | some product =>
    match calculateBasePrice configuration with
    | Except.error e => Except.error e
    | Except.ok basePrice =>
      let context : PricingContext :=
        { product := product
        , configuration := configuration
        , allConfigurations := allConfigurations
        , customerTier := customerTier
        , region := region
        , customFields := customFields }
      let result := applyPricingRules basePrice context
      Except.ok
        { productId := configuration.productId
        , basePrice := basePrice
        , finalPrice := result.finalPrice
        , appliedRules := result.appliedRules }

/-- The aggregate result of `PricerService.calculateTotalPrice`. -/
structure TotalPricing where
  items : List ItemPricing
  totalBasePrice : ℚ
  totalFinalPrice : ℚ
  totalDiscount : ℚ
deriving DecidableEq

/-- From src/services/pricer.ts `PricerService.calculateTotalPrice`:
price every configuration (against the full sibling list) and sum the
base and final prices. -/
def calculateTotalPrice (configurations : List ConfigurationItem)
    (customerTier region : Option String)
    (customFields : Option (List (String × CustomValue))) :
    Except String TotalPricing :=
  match mapE
      (fun config => calculatePrice config configurations customerTier region customFields)
      configurations with
  | Except.error e => Except.error e
  | Except.ok items =>
    let totalBasePrice := items.foldl (fun sum item => sum + item.basePrice) 0
    let totalFinalPrice := items.foldl (fun sum item => sum + item.finalPrice) 0
    Except.ok
      { items := items
      , totalBasePrice := totalBasePrice
      , totalFinalPrice := totalFinalPrice
      , totalDiscount := totalBasePrice - totalFinalPrice }

/-- One selected-option detail of a quote line item. -/
structure OptionDetail where
  id : String
  name : String
  price : ℚ
deriving DecidableEq

/-- One discount record of a quote line item. -/
structure Discount where
  ruleId : String
  ruleName : String
  amount : ℚ
deriving DecidableEq

/-- From src/types/index.ts `QuoteLineItem`. -/
structure QuoteLineItem where
  productId : String
  productName : String
  quantity : ℕ
  basePrice : ℚ
  selectedOptions : List OptionDetail
  subtotal : ℚ
  discounts : List Discount
  total : ℚ
deriving DecidableEq

/-- From src/types/index.ts `Quote`.  The generated `id`, the
`createdAt` timestamp and the `metadata` echo are environment-dependent
output-only fields and are omitted; `tax` is an optional field. -/
structure Quote where
  lineItems : List QuoteLineItem
  subtotal : ℚ
  totalDiscounts : ℚ
  tax : Option ℚ := none
  total : ℚ
deriving DecidableEq

/-- The per-selected-option detail built inside
`QuoterService.generateQuote` (src/services/quoter.ts):
`{id: optionId, name: option?.name || optionId, price: option?.price || 0}`.
The falsy-coalescing `||` yields the option's fields when the lookup
hits (`name || id` differs only for the empty name, `price || 0` never
differs) and `(optionId, 0)` when it misses. -/
def optionDetail (product : Product) (optionId : String) : OptionDetail :=
  match product.options.find? (fun opt => opt.id == optionId) with
  | some option =>
    { id := optionId
    , name := if option.name == "" then optionId else option.name
    , price := option.price }
  | none => { id := optionId, name := optionId, price := 0 }

/-- The line-item construction of `QuoterService.generateQuote` for one
configuration paired with its pricing result. -/
def buildLineItem (pair : ConfigurationItem × ItemPricing) : Except String QuoteLineItem :=
  match getProductById pair.1.productId with
  | none =>
    Except.error ("Product \x27" ++ pair.1.productId ++ "\x27 not found")
  | some product =>
    let selectedOptionsDetails := pair.1.selectedOptions.map (optionDetail product)
    let optionsTotal := selectedOptionsDetails.foldl (fun sum opt => sum + opt.price) 0
    Except.ok
      { productId := pair.1.productId
      , productName := product.name
      , quantity := pair.1.quantity
      , basePrice := product.basePrice
      , selectedOptions := selectedOptionsDetails
      , subtotal := (product.basePrice + optionsTotal) * (pair.1.quantity : ℚ)
      , discounts := pair.2.appliedRules.map (fun rule =>
          { ruleId := rule.ruleId, ruleName := rule.ruleName
          , amount := rule.discountAmount })
      , total := pair.2.finalPrice }

/-- The aggregated failure message of `QuoterService.generateQuote`:
for each invalid result, the product id followed by its error messages
joined by ", ", the items joined by "; ". -/
def aggregateErrors (v : BatchValidation) : String :=
  String.intercalate ("; ")
    ((v.results.filter (fun r => !r.validation.isValid)).map
      (fun r =>
        r.productId ++ ": "
          ++ String.intercalate (", ") (r.validation.errors.map (fun e => e.message))))

/-- JavaScript `Math.round(x * 100) / 100`: round to 2 decimal places,
halves toward positive infinity. -/
def round2 (q : ℚ) : ℚ :=
  ((⌊q * 100 + 1/2⌋ : ℤ) : ℚ) / 100

/-- The totals assembly at the end of `QuoterService.generateQuote`.
`const tax = taxRate ? preTaxTotal * taxRate : undefined` makes the tax
field undefined whenever `taxRate` is absent or zero (JavaScript
truthiness); `const total = tax ? preTaxTotal + tax : preTaxTotal`
likewise falls back to the pre-tax total when the computed tax is zero. -/
def assembleQuote (lineItems : List QuoteLineItem) (pricing : TotalPricing)
    (taxRate : Option ℚ) : Quote :=
  let preTaxTotal := pricing.totalFinalPrice
  let tax : Option ℚ :=
    match taxRate with
    | some rate => if rate = 0 then none else some (preTaxTotal * rate)
    | none => none
  let total : ℚ :=
    match tax with
    | some t => if t = 0 then preTaxTotal else preTaxTotal + t
    | none => preTaxTotal
  { lineItems := lineItems
  , subtotal := pricing.totalBasePrice
  , totalDiscounts := pricing.totalDiscount
  , tax := tax
  , total := round2 total }

/-- From src/services/quoter.ts `QuoterService.generateQuote`: validate
every configuration (throwing the aggregated message when any is
invalid), price all items, build the line items and assemble the quote
totals. -/
def generateQuote (configurations : List ConfigurationItem)
    (customerTier region : Option String)
    (customFields : Option (List (String × CustomValue)))
    (taxRate : Option ℚ) : Except String Quote :=
  let validationResults := validateConfigurations configurations
  if !validationResults.isValid then
    Except.error ("Configuration validation failed: " ++ aggregateErrors validationResults)
  else
    match calculateTotalPrice configurations customerTier region customFields with
    | Except.error e => Except.error e
    | Except.ok pricingResults =>
      match mapE buildLineItem (configurations.zip pricingResults.items) with
      | Except.error e => Except.error e
      | Except.ok lineItems =>
        Except.ok (assembleQuote lineItems pricingResults taxRate)

/-- The prices threaded through the rule-application loop: for each rule
in order, the rule together with the price before and the price after
its transform. -/
def rulePriceSteps (context : PricingContext) (price : ℚ) :
    List PricingRule → List (PricingRule × ℚ × ℚ)
  | [] => []
  | rule :: rest =>
    (rule, price, rule.apply price context)
      :: rulePriceSteps context (rule.apply price context) rest

/-! ## Theorems -/

/-- C5: For every base price (including negative values) and every
pricing context, the rule engine returns `finalPrice ≥ 0`: the final
result is clamped to a floor of zero even if the cumulative rule
transforms would make it negative. -/
theorem applyPricingRules_finalPrice_nonneg (basePrice : ℚ) (context : PricingContext) :
    0 ≤ (applyPricingRules basePrice context).finalPrice :=
  le_max_left 0 _

/-- `round2 0 = 0`. -/
theorem round2_zero : round2 0 = 0 := by
  unfold round2
  norm_num

/-- C10: Calling `generateQuote` with an empty configurations list does
not fail: batch validation of zero items is valid, and the returned
quote has no line items, subtotal 0, totalDiscounts 0, no tax field when
no taxRate is given, and total 0. -/
theorem generateQuote_empty (customerTier region : Option String)
    (customFields : Option (List (String × CustomValue))) :
    (validateConfigurations []).isValid = true
      ∧ generateQuote [] customerTier region customFields none =
          Except.ok
            { lineItems := [], subtotal := 0, totalDiscounts := 0
            , tax := none, total := 0 } := by
  refine ⟨rfl, ?_⟩
  have h : generateQuote [] customerTier region customFields none =
      Except.ok
        { lineItems := [], subtotal := 0, totalDiscounts := (0 : ℚ) - 0
        , tax := none, total := round2 0 } := rfl
  rw [h, sub_zero, round2_zero]

/-- C2: `validateConfiguration` short-circuits on an unknown product
with the single "not found" error on field "productId"; otherwise its
errors are exactly the required-option, invalid-option, conflict and
missing-dependency errors accumulated in that order; and `isValid` holds
exactly when the error list is empty. -/
theorem validateConfiguration_spec (productId : String) (selectedOptions : List String) :
    (getProductById productId = none →
        validateConfiguration productId selectedOptions =
          { isValid := false
          , errors :=
              [ { field := "productId"
                , message := "Product \x27" ++ productId ++ "\x27 not found" } ]
          , warnings := none })
      ∧ (∀ product, getProductById productId = some product →
          (validateConfiguration productId selectedOptions).errors =
            requiredOptionErrors product selectedOptions
              ++ invalidOptionErrors product selectedOptions
              ++ conflictErrors product selectedOptions
              ++ dependencyErrors product selectedOptions)
      ∧ ((validateConfiguration productId selectedOptions).isValid = true ↔
          (validateConfiguration productId selectedOptions).errors = []) := by
  refine ⟨fun h => ?_, fun product h => ?_, ?_⟩
  · simp [validateConfiguration, h]
  · simp [validateConfiguration, h]
  · cases h : getProductById productId with
    | none =>
      simp [validateConfiguration, h]
    | some product =>
      simp [validateConfiguration, h, List.length_eq_zero]

/-- Witness for C2 at the concrete inputs of the repository's own test
suite: an unknown product id short-circuits, and the catalog product
`cloud-server-basic` takes the accumulating path. -/
theorem validateConfiguration_spec_witness :
    validateConfiguration ("invalid-product") [] =
        { isValid := false
        , errors :=
            [ { field := "productId"
              , message := "Product \x27" ++ "invalid-product" ++ "\x27 not found" } ]
        , warnings := none }
      ∧ (validateConfiguration ("cloud-server-basic") ["ram-8gb", "ram-16gb"]).errors =
          requiredOptionErrors cloudServerBasic ["ram-8gb", "ram-16gb"]
            ++ invalidOptionErrors cloudServerBasic ["ram-8gb", "ram-16gb"]
            ++ conflictErrors cloudServerBasic ["ram-8gb", "ram-16gb"]
            ++ dependencyErrors cloudServerBasic ["ram-8gb", "ram-16gb"] :=
  ⟨(validateConfiguration_spec ("invalid-product") []).1 rfl,
   (validateConfiguration_spec ("cloud-server-basic") ["ram-8gb", "ram-16gb"]).2.1
     cloudServerBasic rfl⟩

/-- The loop records exactly the steps whose price difference is
nonzero, as `{ruleId, ruleName, discountAmount = before - after}`. -/
theorem applyRulesGo_eq_filterMap (context : PricingContext)
    (rules : List PricingRule) (price : ℚ) :
    (applyRulesGo context rules price).2 =
      (rulePriceSteps context price rules).filterMap (fun s =>
        if s.2.1 - s.2.2 ≠ 0 then
          some { ruleId := s.1.id, ruleName := s.1.name
               , discountAmount := s.2.1 - s.2.2 }
        else none) := by
  induction rules generalizing price with
  | nil => rfl
  | cons rule rest ih =>
    simp only [applyRulesGo, rulePriceSteps, List.filterMap_cons]
    by_cases h : price - rule.apply price context ≠ 0
    · rw [if_pos h, if_pos h, ih]
    · rw [if_neg h, if_neg h, ih]

/-- Every recorded entry of the loop has a nonzero discount amount. -/
theorem applyRulesGo_discount_ne_zero (context : PricingContext)
    (rules : List PricingRule) (price : ℚ) :
    ∀ e ∈ (applyRulesGo context rules price).2, e.discountAmount ≠ 0 := by
  intro e he
  rw [applyRulesGo_eq_filterMap] at he
  obtain ⟨s, _, hsome⟩ := List.mem_filterMap.mp he
  by_cases h : s.2.1 - s.2.2 ≠ 0
  · rw [if_pos h] at hsome
    cases hsome
    exact h
  · rw [if_neg h] at hsome
    cases hsome

/-- The loop's final price is the starting price minus the recorded
discount amounts (unrecorded rules leave the price unchanged). -/
theorem applyRulesGo_fst (context : PricingContext)
    (rules : List PricingRule) (price : ℚ) :
    (applyRulesGo context rules price).1 =
      price - ((applyRulesGo context rules price).2.map
        (fun e => e.discountAmount)).sum := by
  induction rules generalizing price with
  | nil => simp [applyRulesGo]
  | cons rule rest ih =>
    simp only [applyRulesGo]
    by_cases h : price - rule.apply price context ≠ 0
    · rw [if_pos h]
      rw [ih (rule.apply price context)]
      simp only [List.map_cons, List.sum_cons]
      ring
    · rw [if_neg h]
      rw [ih (rule.apply price context)]
      have h0 : rule.apply price context = price := by
        have := not_not.mp h
        linarith
      rw [h0]

/-- The recorded rule ids form a subsequence of the processed rule ids:
entries appear in application order. -/
theorem applyRulesGo_ruleIds_sublist (context : PricingContext)
    (rules : List PricingRule) (price : ℚ) :
    ((applyRulesGo context rules price).2.map (fun e => e.ruleId)).Sublist
      (rules.map (fun r => r.id)) := by
  induction rules generalizing price with
  | nil => simp [applyRulesGo]
  | cons rule rest ih =>
    simp only [applyRulesGo, List.map_cons]
    by_cases h : price - rule.apply price context ≠ 0
    · rw [if_pos h]
      exact List.Sublist.cons₂ _ (ih (rule.apply price context))
    · rw [if_neg h]
      exact List.Sublist.cons _ (ih (rule.apply price context))


/-- C3: The rules processed by the engine are exactly those whose
predicate holds for the context (a permutation of the filtered catalog),
in ascending priority order, with equal priorities kept in declaration
order (the sorted list restricted to any one priority equals the
filtered catalog restricted to it), and the recorded appliedRules ids
form a subsequence of the processed rule ids, i.e. they appear in
application order. -/
theorem getApplicableRules_order (context : PricingContext) (basePrice : ℚ) :
    (getApplicableRules context).Perm
        (pricingRules.filter (fun rule => rule.condition context))
      ∧ List.Sorted priorityLE (getApplicableRules context)
      ∧ (∀ p : ℤ,
          (getApplicableRules context).filter (fun rule => rule.priority == p) =
            (pricingRules.filter (fun rule => rule.condition context)).filter
              (fun rule => rule.priority == p))
      ∧ ((applyPricingRules basePrice context).appliedRules.map
            (fun e => e.ruleId)).Sublist
          ((getApplicableRules context).map (fun rule => rule.id)) := by
  refine ⟨List.perm_insertionSort priorityLE _,
          List.sorted_insertionSort priorityLE _, fun p => ?_,
          applyRulesGo_ruleIds_sublist context _ basePrice⟩
  set l := pricingRules.filter (fun rule => rule.condition context) with hl
  set P : PricingRule → Bool := fun rule => rule.priority == p with hP
  have hperm : ((List.insertionSort priorityLE l).filter P).Perm (l.filter P) :=
    (List.perm_insertionSort priorityLE l).filter P
  have hpair : (l.filter P).Pairwise priorityLE := by
    refine List.pairwise_of_forall_mem_list (fun a ha b hb => ?_)
    have ha' : a.priority = p := by
      have := (List.mem_filter.mp ha).2
      exact beq_iff_eq.mp this
    have hb' : b.priority = p := by
      have := (List.mem_filter.mp hb).2
      exact beq_iff_eq.mp this
    show a.priority ≤ b.priority
    rw [ha', hb']
  have hsub : (l.filter P).Sublist (List.insertionSort priorityLE l) :=
    List.sublist_insertionSort hpair (List.filter_sublist l)
  have hsub2 : ((l.filter P).filter P).Sublist
      ((List.insertionSort priorityLE l).filter P) :=
    hsub.filter P
  have hidem : (l.filter P).filter P = l.filter P := by
    rw [List.filter_filter]
    simp
  rw [hidem] at hsub2
  exact (hsub2.eq_of_length (hperm.length_eq.symm)).symm

/-- C4: During the fold, a rule is recorded iff its transform changes
the running price: the recorded entries are exactly the filterMap of the
priced steps with nonzero difference, with
`discountAmount = priceBefore - priceAfter`; every recorded entry has a
nonzero discount; and the final price is the base price minus the sum of
the recorded discounts (clamped at zero), so unchanged rules contribute
nothing. -/
theorem applyPricingRules_records_iff_changed (basePrice : ℚ)
    (context : PricingContext) :
    (applyPricingRules basePrice context).appliedRules =
        (rulePriceSteps context basePrice (getApplicableRules context)).filterMap
          (fun s =>
            if s.2.1 - s.2.2 ≠ 0 then
              some { ruleId := s.1.id, ruleName := s.1.name
                   , discountAmount := s.2.1 - s.2.2 }
            else none)
      ∧ (∀ e ∈ (applyPricingRules basePrice context).appliedRules,
          e.discountAmount ≠ 0)
      ∧ (applyPricingRules basePrice context).finalPrice =
          max 0 (basePrice -
            (((applyPricingRules basePrice context).appliedRules).map
              (fun e => e.discountAmount)).sum) :=
  ⟨applyRulesGo_eq_filterMap context _ basePrice,
   fun e he => applyRulesGo_discount_ne_zero context _ basePrice e he,
   congrArg (max 0) (applyRulesGo_fst context _ basePrice)⟩

/-- C6: among the applicable rules, no volume rule fires for
`1 ≤ quantity < 5`, exactly the 10% volume rule fires for
`5 ≤ quantity < 10`, and exactly the 20% volume rule (never the 10% one)
fires for `quantity ≥ 10`. -/
theorem volumeDiscountTiers (context : PricingContext) :
    (1 ≤ context.configuration.quantity → context.configuration.quantity < 5 →
        ((getApplicableRules context).filter (fun rule =>
            rule.id == "volume-discount-10-percent"
              || rule.id == "volume-discount-20-percent")).map (fun rule => rule.id)
          = [])
      ∧ (5 ≤ context.configuration.quantity → context.configuration.quantity < 10 →
          ((getApplicableRules context).filter (fun rule =>
              rule.id == "volume-discount-10-percent"
                || rule.id == "volume-discount-20-percent")).map (fun rule => rule.id)
            = ["volume-discount-10-percent"])
      ∧ (10 ≤ context.configuration.quantity →
          ((getApplicableRules context).filter (fun rule =>
              rule.id == "volume-discount-10-percent"
                || rule.id == "volume-discount-20-percent")).map (fun rule => rule.id)
            = ["volume-discount-20-percent"]) := by
  have hperm : ∀ P : PricingRule → Bool,
      ((getApplicableRules context).filter P).Perm
        ((pricingRules.filter (fun rule => rule.condition context)).filter P) :=
    fun P => (List.perm_insertionSort priorityLE _).filter P
  have hv := hperm (fun rule =>
    rule.id == "volume-discount-10-percent" || rule.id == "volume-discount-20-percent")
  rw [List.filter_comm] at hv
  have hfl : pricingRules.filter (fun rule =>
      rule.id == "volume-discount-10-percent"
        || rule.id == "volume-discount-20-percent")
      = [volumeDiscount10, volumeDiscount20] := rfl
  rw [hfl] at hv
  refine ⟨fun h1 h5 => ?_, fun h5 h10 => ?_, fun h10 => ?_⟩
  · have hc10 : volumeDiscount10.condition context = false := by
      have h : ¬ (5 ≤ context.configuration.quantity) := by omega
      simp [volumeDiscount10, h]
    have hc20 : volumeDiscount20.condition context = false := by
      have h : ¬ (10 ≤ context.configuration.quantity) := by omega
      simp [volumeDiscount20, h]
    rw [List.filter_cons_of_neg (by simp [hc10]),
        List.filter_cons_of_neg (by simp [hc20]), List.filter_nil] at hv
    rw [hv.eq_nil, List.map_nil]
  · have hc10 : volumeDiscount10.condition context = true := by
      simp [volumeDiscount10, h5, h10]
    have hc20 : volumeDiscount20.condition context = false := by
      have h : ¬ (10 ≤ context.configuration.quantity) := by omega
      simp [volumeDiscount20, h]
    rw [List.filter_cons_of_pos (by simp [hc10]),
        List.filter_cons_of_neg (by simp [hc20]), List.filter_nil] at hv
    rw [List.perm_singleton.mp hv]
    rfl
  · have hc10 : volumeDiscount10.condition context = false := by
      have h : ¬ (context.configuration.quantity < 10) := by omega
      simp [volumeDiscount10, h]
    have hc20 : volumeDiscount20.condition context = true := by
      simp [volumeDiscount20, h10]
    rw [List.filter_cons_of_neg (by simp [hc10]),
        List.filter_cons_of_pos (by simp [hc20]), List.filter_nil] at hv
    rw [List.perm_singleton.mp hv]
    rfl

/-- Witness for C6 at quantities 3, 7 and 12 (product
`cloud-server-basic`, no tier/region/custom fields). -/
theorem volumeDiscountTiers_witness :
    ((getApplicableRules
        ⟨cloudServerBasic, ⟨"cloud-server-basic", [], 3⟩, [], none, none, none⟩).filter
          (fun rule =>
            rule.id == "volume-discount-10-percent"
              || rule.id == "volume-discount-20-percent")).map (fun rule => rule.id)
        = []
      ∧ ((getApplicableRules
          ⟨cloudServerBasic, ⟨"cloud-server-basic", [], 7⟩, [], none, none, none⟩).filter
            (fun rule =>
              rule.id == "volume-discount-10-percent"
                || rule.id == "volume-discount-20-percent")).map (fun rule => rule.id)
          = ["volume-discount-10-percent"]
      ∧ ((getApplicableRules
          ⟨cloudServerBasic, ⟨"cloud-server-basic", [], 12⟩, [], none, none, none⟩).filter
            (fun rule =>
              rule.id == "volume-discount-10-percent"
                || rule.id == "volume-discount-20-percent")).map (fun rule => rule.id)
          = ["volume-discount-20-percent"] :=
  ⟨(volumeDiscountTiers
      ⟨cloudServerBasic, ⟨"cloud-server-basic", [], 3⟩, [], none, none, none⟩).1
      (by decide) (by decide),
   (volumeDiscountTiers
      ⟨cloudServerBasic, ⟨"cloud-server-basic", [], 7⟩, [], none, none, none⟩).2.1
      (by decide) (by decide),
   (volumeDiscountTiers
      ⟨cloudServerBasic, ⟨"cloud-server-basic", [], 12⟩, [], none, none, none⟩).2.2
      (by decide)⟩

/-- On a product whose option ids are distinct, looking an option up by
its own id finds exactly that option. -/
theorem find?_id_of_mem (opts : List ProductOption) (o : ProductOption)
    (hnd : (opts.map (fun x => x.id)).Nodup) (hm : o ∈ opts) :
    opts.find? (fun x => x.id == o.id) = some o := by
  induction opts with
  | nil => cases hm
  | cons a rest ih =>
    rw [List.map_cons] at hnd
    obtain ⟨ha, hrest⟩ := List.nodup_cons.mp hnd
    rcases List.mem_cons.mp hm with rfl | hmem
    · exact List.find?_cons_of_pos _ (by simp)
    · have hne : (a.id == o.id) = false := by
        refine beq_eq_false_iff_ne.mpr (fun he => ha ?_)
        rw [he]
        exact List.mem_map_of_mem (fun x => x.id) hmem
      rw [List.find?_cons_of_neg _ (by simp [hne])]
      exact ih hrest hmem

/-- Counting one pair in the conflict enumeration: when the pair can
only arise from outer element `a`, the total count is the number of
occurrences of `a` in the outer list times the count contributed by
`a`'s inner list. -/
theorem count_flatMap_single (g : String → List (String × String))
    (outer : List String) (a b : String)
    (hg : ∀ s, s ≠ a → (a, b) ∉ g s) :
    (outer.flatMap g).count (a, b) = (outer.count a) * ((g a).count (a, b)) := by
  induction outer with
  | nil => simp
  | cons s rest ih =>
    rw [List.flatMap_cons, List.count_append, ih]
    by_cases hs : s = a
    · subst hs
      rw [List.count_cons_self]
      ring
    · rw [List.count_cons_of_ne (fun he => hs he.symm)]
      rw [List.count_eq_zero.mpr (hg s hs)]
      ring

/-- Counting a pair in a constant-first-component pairing counts the
second component. -/
theorem count_pair_map (x b : String) (l : List String) :
    List.count (x, b) (l.map (fun c => (x, c))) = List.count b l := by
  induction l with
  | nil => rfl
  | cons c rest ih =>
    simp only [List.map_cons, List.count_cons, ih]
    by_cases h : c = b <;> simp [h]

/-- Every pair contributed by selected id `s` has first component `s`. -/
theorem conflictPairsFor_fst (product : Product) (sel : List String)
    (s x y : String) (hmem : (x, y) ∈ conflictPairsFor product sel s) :
    x = s := by
  unfold conflictPairsFor at hmem
  cases hf : product.options.find? (fun opt => opt.id == s) with
  | none => rw [hf] at hmem; cases hmem
  | some option =>
    rw [hf] at hmem
    obtain ⟨c, _, hc⟩ := List.mem_map.mp hmem
    exact ((Prod.mk.injEq _ _ _ _).mp hc).1.symm

/-- C8: when option A declares a conflict with option B but not
conversely, and both are selected (no duplicate ids anywhere), the
conflict check emits exactly one error, from A's side, and none from B's
side; the emitted errors are exactly the rendered "cannot be selected
together" messages of the enumerated pairs. -/
theorem asymmetricConflictSingleError (product : Product) (sel : List String)
    (oA oB : ProductOption)
    (hids : (product.options.map (fun o => o.id)).Nodup)
    (hsel : sel.Nodup)
    (hconf : oA.conflicts.Nodup)
    (hAmem : oA ∈ product.options) (hBmem : oB ∈ product.options)
    (hBinA : oB.id ∈ oA.conflicts) (hAnotB : oA.id ∉ oB.conflicts)
    (hAsel : oA.id ∈ sel) (hBsel : oB.id ∈ sel) :
    (conflictPairs product sel).count (oA.id, oB.id) = 1
      ∧ (conflictPairs product sel).count (oB.id, oA.id) = 0
      ∧ conflictErrors product sel =
          (conflictPairs product sel).map
            (fun p => conflictErrorOf product p.1 p.2) := by
  have hgA : conflictPairsFor product sel oA.id
      = (oA.conflicts.filter (fun c => sel.contains c)).map
          (fun c => (oA.id, c)) := by
    unfold conflictPairsFor
    rw [find?_id_of_mem product.options oA hids hAmem]
  have hgB : conflictPairsFor product sel oB.id
      = (oB.conflicts.filter (fun c => sel.contains c)).map
          (fun c => (oB.id, c)) := by
    unfold conflictPairsFor
    rw [find?_id_of_mem product.options oB hids hBmem]
  refine ⟨?_, ?_, rfl⟩
  · rw [conflictPairs,
        count_flatMap_single _ sel oA.id oB.id
          (fun s hs hmem => hs (conflictPairsFor_fst product sel s _ _ hmem).symm)]
    rw [hgA]
    rw [count_pair_map oA.id oB.id]
    rw [List.count_filter (by simpa using hBsel)]
    rw [List.count_eq_one_of_mem hconf hBinA]
    rw [List.count_eq_one_of_mem hsel hAsel]
  · rw [conflictPairs,
        count_flatMap_single _ sel oB.id oA.id
          (fun s hs hmem => hs (conflictPairsFor_fst product sel s _ _ hmem).symm)]
    rw [hgB]
    rw [count_pair_map oB.id oA.id]
    have hnm : oA.id ∉ oB.conflicts.filter (fun c => sel.contains c) :=
      fun hmem => hAnotB (List.mem_of_mem_filter hmem)
    rw [List.count_eq_zero.mpr hnm]
    ring

/-- Witness for C8 on the catalog: on `cloud-server-basic`, `ram-16gb`
declares a conflict with `ram-8gb` but not conversely; selecting both
yields exactly one conflict pair, from the `ram-16gb` side. -/
theorem asymmetricConflictSingleError_witness :
    (conflictPairs cloudServerBasic ["ram-8gb", "ram-16gb"]).count
        ("ram-16gb", "ram-8gb") = 1
      ∧ (conflictPairs cloudServerBasic ["ram-8gb", "ram-16gb"]).count
          ("ram-8gb", "ram-16gb") = 0 :=
  have h := asymmetricConflictSingleError cloudServerBasic ["ram-8gb", "ram-16gb"]
    { id := "ram-16gb", name := "16GB RAM Upgrade", price := 50, isRequired := false
    , conflicts := ["ram-8gb"] }
    { id := "ram-8gb", name := "8GB RAM Upgrade", price := 20, isRequired := false }
    (by decide) (by decide) (by decide)
    (by exact List.mem_cons_of_mem _ (List.mem_cons_self _ _))
    (by exact List.mem_cons_self _ _)
    (by decide) (by decide) (by decide) (by decide)
  ⟨h.1, h.2.1⟩

/-- A configuration that validates successfully references an existing
product (an unknown product short-circuits with `isValid = false`). -/
theorem product_exists_of_valid (productId : String) (selectedOptions : List String)
    (h : (validateConfiguration productId selectedOptions).isValid = true) :
    ∃ p, getProductById productId = some p := by
  cases hf : getProductById productId with
  | none =>
    rw [validateConfiguration, hf] at h
    cases h
  | some p => exact ⟨p, rfl⟩

/-- `calculatePrice` succeeds whenever the configured product exists. -/
theorem calculatePrice_ok (configuration : ConfigurationItem)
    (allConfigurations : List ConfigurationItem)
    (customerTier region : Option String)
    (customFields : Option (List (String × CustomValue)))
    (p : Product) (h : getProductById configuration.productId = some p) :
    ∃ item, calculatePrice configuration allConfigurations customerTier region
        customFields = Except.ok item := by
  cases hcp : calculatePrice configuration allConfigurations customerTier region
      customFields with
  | error e =>
    rw [calculatePrice, h, calculateBasePrice, h] at hcp
    cases hcp
  | ok item => exact ⟨item, rfl⟩

/-- `buildLineItem` succeeds whenever the configured product exists. -/
theorem buildLineItem_ok (pair : ConfigurationItem × ItemPricing)
    (p : Product) (h : getProductById pair.1.productId = some p) :
    ∃ li, buildLineItem pair = Except.ok li := by
  cases hb : buildLineItem pair with
  | error e =>
    rw [buildLineItem, h] at hb
    cases hb
  | ok li => exact ⟨li, rfl⟩

/-- `mapE` succeeds when its body succeeds on every element. -/
theorem mapE_ok {α β : Type} (f : α → Except String β) (l : List α)
    (h : ∀ x ∈ l, ∃ y, f x = Except.ok y) :
    ∃ ys, mapE f l = Except.ok ys := by
  induction l with
  | nil => exact ⟨[], rfl⟩
  | cons x xs ih =>
    obtain ⟨y, hy⟩ := h x (List.mem_cons_self x xs)
    obtain ⟨ys, hys⟩ := ih (fun z hz => h z (List.mem_cons_of_mem x hz))
    exact ⟨y :: ys, by rw [mapE, hy, hys]⟩

/-- Batch validity is validity of every item. -/
theorem validateConfigurations_isValid_iff (configurations : List ConfigurationItem) :
    (validateConfigurations configurations).isValid = true ↔
      ∀ c ∈ configurations,
        (validateConfiguration c.productId c.selectedOptions).isValid = true := by
  simp [validateConfigurations, List.all_eq_true]

/-- When every configuration validates, pricing and line-item building
succeed and `generateQuote` returns the assembled quote, for every tax
rate. -/
theorem generateQuote_ok_shape (configurations : List ConfigurationItem)
    (customerTier region : Option String)
    (customFields : Option (List (String × CustomValue)))
    (h : (validateConfigurations configurations).isValid = true) :
    ∃ pricing lineItems,
      calculateTotalPrice configurations customerTier region customFields =
          Except.ok pricing
        ∧ mapE buildLineItem (configurations.zip pricing.items) = Except.ok lineItems
        ∧ ∀ taxRate : Option ℚ,
            generateQuote configurations customerTier region customFields taxRate =
              Except.ok (assembleQuote lineItems pricing taxRate) := by
  have hall := (validateConfigurations_isValid_iff configurations).mp h
  have hprod : ∀ c ∈ configurations, ∃ p, getProductById c.productId = some p :=
    fun c hc => product_exists_of_valid c.productId c.selectedOptions (hall c hc)
  obtain ⟨items, hitems⟩ := mapE_ok
    (fun config => calculatePrice config configurations customerTier region customFields)
    configurations
    (fun c hc =>
      let ⟨p, hp⟩ := hprod c hc
      calculatePrice_ok c configurations customerTier region customFields p hp)
  have hct : calculateTotalPrice configurations customerTier region customFields =
      Except.ok
        { items := items
        , totalBasePrice := items.foldl (fun sum item => sum + item.basePrice) 0
        , totalFinalPrice := items.foldl (fun sum item => sum + item.finalPrice) 0
        , totalDiscount := items.foldl (fun sum item => sum + item.basePrice) 0
            - items.foldl (fun sum item => sum + item.finalPrice) 0 } := by
    rw [calculateTotalPrice, hitems]
  have hzip : ∀ pair ∈ configurations.zip items,
      ∃ p, getProductById pair.1.productId = some p := by
    intro pair hpair
    obtain ⟨c, item⟩ := pair
    exact hprod c (List.of_mem_zip hpair).1
  obtain ⟨lineItems, hli⟩ := mapE_ok buildLineItem (configurations.zip items)
    (fun pair hpair =>
      let ⟨p, hp⟩ := hzip pair hpair
      buildLineItem_ok pair p hp)
  refine ⟨_, lineItems, hct, hli, fun taxRate => ?_⟩
  rw [generateQuote, h]
  show (match calculateTotalPrice configurations customerTier region customFields with
    | Except.error e => Except.error e
    | Except.ok pricingResults =>
      match mapE buildLineItem (configurations.zip pricingResults.items) with
      | Except.error e => Except.error e
      | Except.ok lineItems =>
        Except.ok (assembleQuote lineItems pricingResults taxRate)) = _
  rw [hct]
  show (match mapE buildLineItem (configurations.zip items) with
    | Except.error e => Except.error e
    | Except.ok lineItems => Except.ok (assembleQuote lineItems _ taxRate)) = _
  rw [hli]

/-- C7: `generateQuote` fails exactly when some configuration item fails
validation, with the aggregated per-product error message; when every
item is valid a quote is always produced. -/
theorem generateQuote_all_or_nothing (configurations : List ConfigurationItem)
    (customerTier region : Option String)
    (customFields : Option (List (String × CustomValue)))
    (taxRate : Option ℚ) :
    ((validateConfigurations configurations).isValid = false →
        generateQuote configurations customerTier region customFields taxRate =
          Except.error ("Configuration validation failed: "
            ++ aggregateErrors (validateConfigurations configurations)))
      ∧ ((validateConfigurations configurations).isValid = true →
          ∃ q, generateQuote configurations customerTier region customFields taxRate =
            Except.ok q)
      ∧ ((validateConfigurations configurations).isValid = true ↔
          ∀ c ∈ configurations,
            (validateConfiguration c.productId c.selectedOptions).isValid = true) := by
  refine ⟨fun h => ?_, fun h => ?_, validateConfigurations_isValid_iff configurations⟩
  · rw [generateQuote, h]
    rfl
  · obtain ⟨pricing, lineItems, _, _, hgen⟩ :=
      generateQuote_ok_shape configurations customerTier region customFields h
    exact ⟨assembleQuote lineItems pricing taxRate, hgen taxRate⟩

/-- Witness for C7: a configuration with an unknown product makes the
whole quote fail with the aggregated message, while a valid
configuration always produces a quote. -/
theorem generateQuote_all_or_nothing_witness :
    generateQuote [⟨"nope", [], 1⟩] none none none none =
        Except.error ("Configuration validation failed: "
          ++ aggregateErrors (validateConfigurations [⟨"nope", [], 1⟩]))
      ∧ ∃ q, generateQuote [⟨"cloud-server-basic", [], 1⟩] none none none none =
          Except.ok q :=
  ⟨(generateQuote_all_or_nothing [⟨"nope", [], 1⟩] none none none none).1 rfl,
   (generateQuote_all_or_nothing [⟨"cloud-server-basic", [], 1⟩] none none none
      none).2.1 rfl⟩

/-- The option-price accumulation ignores selected ids that are not
found on the product: the sum over a selection equals the sum over just
its found ids. -/
theorem optionsPriceSum_filter_found (product : Product)
    (selectedOptions : List String) (total : ℚ) :
    optionsPriceSum product selectedOptions total =
      optionsPriceSum product
        (selectedOptions.filter
          (fun oid => (product.options.find? (fun opt => opt.id == oid)).isSome))
        total := by
  induction selectedOptions generalizing total with
  | nil => rfl
  | cons s rest ih =>
    cases hf : product.options.find? (fun opt => opt.id == s) with
    | none =>
      rw [List.filter_cons_of_neg (by simp [hf])]
      rw [optionsPriceSum, List.foldl_cons, hf]
      exact ih total
    | some o =>
      rw [List.filter_cons_of_pos (by simp [hf])]
      rw [optionsPriceSum, List.foldl_cons, hf,
          optionsPriceSum, List.foldl_cons, hf]
      exact ih (total + o.price)

/-- C9: selected option ids that do not exist on the configured product
never make pricing fail and contribute zero: `calculateBasePrice` sums
only the found ids, `calculatePrice` succeeds on any selection once the
product exists, and the line-item detail of an unknown id is the raw id
with price 0. -/
theorem unknownOptions_zero_contribution (configuration : ConfigurationItem)
    (product : Product)
    (hp : getProductById configuration.productId = some product)
    (allConfigurations : List ConfigurationItem)
    (customerTier region : Option String)
    (customFields : Option (List (String × CustomValue))) :
    calculateBasePrice configuration =
        Except.ok (optionsPriceSum product configuration.selectedOptions
          product.basePrice * (configuration.quantity : ℚ))
      ∧ (∃ item, calculatePrice configuration allConfigurations customerTier region
          customFields = Except.ok item)
      ∧ optionsPriceSum product configuration.selectedOptions product.basePrice =
          optionsPriceSum product
            (configuration.selectedOptions.filter
              (fun oid => (product.options.find? (fun opt => opt.id == oid)).isSome))
            product.basePrice
      ∧ (∀ oid, product.options.find? (fun opt => opt.id == oid) = none →
          optionDetail product oid = { id := oid, name := oid, price := 0 }) := by
  refine ⟨?_, calculatePrice_ok configuration allConfigurations customerTier region
            customFields product hp,
          optionsPriceSum_filter_found product configuration.selectedOptions
            product.basePrice,
          fun oid hf => ?_⟩
  · rw [calculateBasePrice, hp]
  · rw [optionDetail, hf]

/-- Witness for C9: pricing `cloud-server-basic` with the selection
["nonexistent-option"] succeeds, and that id's line-item detail is the
raw id with price 0. -/
theorem unknownOptions_zero_contribution_witness :
    (∃ item, calculatePrice ⟨"cloud-server-basic", ["nonexistent-option"], 2⟩ []
        none none none = Except.ok item)
      ∧ optionDetail cloudServerBasic "nonexistent-option" =
          { id := "nonexistent-option", name := "nonexistent-option", price := 0 } :=
  have h := unknownOptions_zero_contribution
    ⟨"cloud-server-basic", ["nonexistent-option"], 2⟩ cloudServerBasic rfl
    [] none none none
  ⟨h.2.1, h.2.2.2 ("nonexistent-option") rfl⟩

/-- C1 counterexample: supplying `taxRate = 0` does NOT put a tax field
on the quote.  `const tax = taxRate ? ... : undefined` treats the rate 0
as falsy, so the quote's tax is omitted (`none`), not
`some (preTaxTotal * 0) = some 0` as the claim (which includes
`taxRate = 0`) requires. -/
theorem generateQuote_taxRate_zero_omits_tax :
    ((generateQuote [⟨"cloud-server-basic", [], 1⟩] none none none
          (some 0)).toOption.map Quote.tax) = some none
      ∧ ((generateQuote [⟨"cloud-server-basic", [], 1⟩] none none none
          (some 0)).toOption.map Quote.tax) ≠ some (some (0 : ℚ)) := by
  refine ⟨rfl, fun h => ?_⟩
  have h2 : (some (none : Option ℚ) : Option (Option ℚ)) = some (some (0 : ℚ)) :=
    (show ((generateQuote [⟨"cloud-server-basic", [], 1⟩] none none none
        (some 0)).toOption.map Quote.tax) = some none from rfl).symm.trans h
  simp at h2

/-- C1 (amended): on a validating configuration set, a NONZERO supplied
taxRate yields `tax = preTaxTotal * taxRate` and
`total = round2 (preTaxTotal + tax)`; an absent OR ZERO taxRate omits
the tax field and yields `total = round2 preTaxTotal`. -/
theorem generateQuote_tax_amended (configurations : List ConfigurationItem)
    (customerTier region : Option String)
    (customFields : Option (List (String × CustomValue)))
    (hv : (validateConfigurations configurations).isValid = true) :
    (∀ rate : ℚ, rate ≠ 0 →
        (generateQuote configurations customerTier region customFields
              (some rate)).toOption.map Quote.tax
            = (calculateTotalPrice configurations customerTier region
                customFields).toOption.map
                (fun pr => some (pr.totalFinalPrice * rate))
          ∧ (generateQuote configurations customerTier region customFields
              (some rate)).toOption.map Quote.total
            = (calculateTotalPrice configurations customerTier region
                customFields).toOption.map
                (fun pr => round2 (pr.totalFinalPrice + pr.totalFinalPrice * rate)))
      ∧ (∀ taxRate : Option ℚ, taxRate = none ∨ taxRate = some 0 →
          (generateQuote configurations customerTier region customFields
              taxRate).toOption.map Quote.tax
            = (calculateTotalPrice configurations customerTier region
                customFields).toOption.map (fun _ => (none : Option ℚ))
          ∧ (generateQuote configurations customerTier region customFields
              taxRate).toOption.map Quote.total
            = (calculateTotalPrice configurations customerTier region
                customFields).toOption.map
                (fun pr => round2 pr.totalFinalPrice)) := by
  obtain ⟨pricing, lineItems, hct, hli, hgen⟩ :=
    generateQuote_ok_shape configurations customerTier region customFields hv
  refine ⟨fun rate hne => ?_, fun taxRate hcase => ?_⟩
  · rw [hgen (some rate), hct]
    constructor
    · show some (assembleQuote lineItems pricing (some rate)).tax
        = some (some (pricing.totalFinalPrice * rate))
      simp [assembleQuote, hne]
    · show some (assembleQuote lineItems pricing (some rate)).total
        = some (round2 (pricing.totalFinalPrice + pricing.totalFinalPrice * rate))
      simp only [assembleQuote, Option.some.injEq, if_neg hne]
      by_cases hz : pricing.totalFinalPrice * rate = 0
      · rw [if_pos hz, hz, add_zero]
      · rw [if_neg hz]
  · rcases hcase with rfl | rfl
    · rw [hgen none, hct]
      exact ⟨rfl, rfl⟩
    · rw [hgen (some 0), hct]
      constructor
      · show some (assembleQuote lineItems pricing (some 0)).tax = some none
        simp [assembleQuote]
      · show some (assembleQuote lineItems pricing (some 0)).total
          = some (round2 pricing.totalFinalPrice)
        simp [assembleQuote]

/-- Witness for the amended C1 on one valid configuration with the
nonzero rate 1/10 and with the rate 0. -/
theorem generateQuote_tax_amended_witness :
    ((generateQuote [⟨"cloud-server-basic", [], 1⟩] none none none
          (some (1/10))).toOption.map Quote.tax
        = (calculateTotalPrice [⟨"cloud-server-basic", [], 1⟩] none none
            none).toOption.map (fun pr => some (pr.totalFinalPrice * (1/10))))
      ∧ ((generateQuote [⟨"cloud-server-basic", [], 1⟩] none none none
          (some 0)).toOption.map Quote.tax
        = (calculateTotalPrice [⟨"cloud-server-basic", [], 1⟩] none none
            none).toOption.map (fun _ => (none : Option ℚ))) :=
  ⟨((generateQuote_tax_amended [⟨"cloud-server-basic", [], 1⟩] none none none
      rfl).1 (1/10) (by norm_num)).1,
   ((generateQuote_tax_amended [⟨"cloud-server-basic", [], 1⟩] none none none
      rfl).2 (some 0) (Or.inr rfl)).1⟩

end CPQ
